import Mathlib

/-!
Verification of the batching/flush subsystem of the omnipulse Go SDK
(`Client` in fiber.go): buffers, append operations, the swap-then-send
flush protocol, error aggregation, the background flush worker, and
client construction/shutdown.

The flush subsystem never inspects log, span, or metric records, so the
embedding is parameterized over their types `L`, `S`, `M`. Job records
(`JobData`) are inspected (timestamp defaulting in `LogJob`), so that
type is embedded concretely. Go durations (`time.Duration`) are
nanosecond integers; Go `int` fields are `Int`.
-/

namespace Omnipulse

/-- JobData from fiber.go: job name, queue, durations, status, error, timestamp. -/
structure JobData where
  jobName : String
  queue : String
  durationMs : Int
  waitTimeMs : Int
  status : String
  error : String
  ts : String
deriving DecidableEq

/-- Config from fiber.go. `flushInterval` and `timeout` are `time.Duration`
values in nanoseconds; `batchSize` is a Go `int`. -/
structure Config where
  apiUrl : String
  ingestKey : String
  environment : String
  serviceName : String
  version : String
  debug : Bool
  batchSize : Int
  flushInterval : Int
  timeout : Int
deriving DecidableEq

/-- The four per-kind buffers of `Client` (logBuffer, spanBuffer,
metricBuffer, jobBuffer). -/
structure Buffers (L S M : Type) where
  logs : List L
  spans : List S
  metrics : List M
  jobs : List JobData
deriving DecidableEq

variable {L S M : Type}

/-- Four freshly allocated empty buffers (capacity hints are irrelevant
to contents). -/
def emptyBuffers : Buffers L S M := ⟨[], [], [], []⟩

/-- The client state relevant to buffering and lifecycle: configuration,
the four buffers, and whether `ctx` has been cancelled (`c.cancel()`). -/
structure ClientState (L S M : Type) where
  config : Config
  buffers : Buffers L S M
  cancelled : Bool
deriving DecidableEq

/-- APIUrl after the environment fallback in `New`:
`if cfg.APIUrl == "" { cfg.APIUrl = os.Getenv("OMNIPULSE_URL") }`. -/
def resolvedApiUrl (envUrl : String) (cfg : Config) : String :=
  if cfg.apiUrl = "" then envUrl else cfg.apiUrl

/-- IngestKey after the environment fallback in `New`:
`if cfg.IngestKey == "" { cfg.IngestKey = os.Getenv("OMNIPULSE_INGEST_KEY") }`. -/
def resolvedIngestKey (envKey : String) (cfg : Config) : String :=
  if cfg.ingestKey = "" then envKey else cfg.ingestKey

/-- The default-filling block of `New`: environment defaults to
"production", batch size to 100, flush interval and timeout to 5s. -/
def applyDefaults (cfg : Config) : Config :=
  { cfg with
    environment := if cfg.environment = "" then "production" else cfg.environment
    batchSize := if cfg.batchSize = 0 then 100 else cfg.batchSize
    flushInterval := if cfg.flushInterval = 0 then 5000000000 else cfg.flushInterval
    timeout := if cfg.timeout = 0 then 5000000000 else cfg.timeout }

/-- `New` from fiber.go: fall back to the environment for APIUrl and
IngestKey, fail if either is still missing, fill defaults, and return a
client with four empty buffers and a running (not cancelled) context. -/
def New (envUrl envKey : String) (cfg : Config) : Except String (ClientState L S M) :=
  let cfg := { cfg with apiUrl := resolvedApiUrl envUrl cfg }
  let cfg := { cfg with ingestKey := resolvedIngestKey envKey cfg }
  if cfg.apiUrl = "" ∨ cfg.ingestKey = "" then
    Except.error "APIUrl and IngestKey are required"
  else
    Except.ok
      { config := applyDefaults cfg
        buffers := emptyBuffers
        cancelled := false }

/-- A JSON payload of one `send` call: the three batch envelopes
(`{"logs": [...]}` etc.) or a bare job object. -/
inductive Payload (L S M : Type) where
  | logBatch (logs : List L)
  | spanBatch (spans : List S)
  | metricBatch (metrics : List M)
  | jobSingle (job : JobData)
deriving DecidableEq

/-- The envelope key wrapping the records of a payload, if any (jobs are
sent bare, with no envelope). -/
def envelopeKey : Payload L S M → Option String
  | .logBatch _ => some "logs"
  | .spanBatch _ => some "spans"
  | .metricBatch _ => some "metrics"
  | .jobSingle _ => none

/-- One HTTP POST issued by `Client.send`: endpoint suffix and payload. -/
structure Request (L S M : Type) where
  endpoint : String
  payload : Payload L S M
deriving DecidableEq

/-- `Client.sendLogs`: POST to /api/ingest/logs with envelope key "logs". -/
def sendLogsReq (logs : List L) : Request L S M :=
  ⟨"/api/ingest/logs", Payload.logBatch logs⟩

/-- `Client.sendSpans`: POST to /api/ingest/traces with envelope key "spans". -/
def sendSpansReq (spans : List S) : Request L S M :=
  ⟨"/api/ingest/traces", Payload.spanBatch spans⟩

/-- `Client.sendMetrics`: POST to /api/ingest/app-metrics with envelope key "metrics". -/
def sendMetricsReq (metrics : List M) : Request L S M :=
  ⟨"/api/ingest/app-metrics", Payload.metricBatch metrics⟩

/-- `Client.sendJob`: POST to /api/ingest/app-job with the bare job object. -/
def sendJobReq (job : JobData) : Request L S M :=
  ⟨"/api/ingest/app-job", Payload.jobSingle job⟩

/-- Environment outcome of one delivery attempt: a failure at one of the
steps of `Client.send` (marshal, gzip write/close, request creation,
`httpClient.Do`), or an HTTP response with a status code. -/
inductive SendResult where
  | marshalFailure
  | gzipFailure
  | requestFailure
  | transportFailure
  | status (code : Nat)
deriving DecidableEq

/-- The error values `Client.send` can return, one per failure branch
plus the `server returned status ...` branch. -/
inductive SendError where
  | marshal
  | gzip
  | request
  | transport
  | httpStatus (code : Nat)
deriving DecidableEq

/-- `Client.send`, given the environment outcome of the attempt: every
failure branch returns an error; a response is an error exactly when
`resp.StatusCode >= 400`, otherwise nil. -/
def sendOutcome : SendResult → Option SendError
  | .marshalFailure => some SendError.marshal
  | .gzipFailure => some SendError.gzip
  | .requestFailure => some SendError.request
  | .transportFailure => some SendError.transport
  | .status code => if 400 ≤ code then some (SendError.httpStatus code) else none

/-- The lock-held section of `Client.Flush`: take the four buffers as a
snapshot and replace each with a freshly allocated empty buffer. -/
def flushSwap (st : ClientState L S M) : Buffers L S M × ClientState L S M :=
  (st.buffers, { st with buffers := emptyBuffers })

/-- The sequence of delivery attempts `Client.Flush` makes after
releasing the lock: one batch request per non-empty kind (logs, spans,
metrics, in that order), then one request per job record. -/
def flushRequests (snap : Buffers L S M) : List (Request L S M) :=
  (if snap.logs.length > 0 then [sendLogsReq snap.logs] else []) ++
  (if snap.spans.length > 0 then [sendSpansReq snap.spans] else []) ++
  (if snap.metrics.length > 0 then [sendMetricsReq snap.metrics] else []) ++
  snap.jobs.map sendJobReq

/-- The `lastErr` update of `Client.Flush`: a failed attempt overwrites
the accumulator, a successful one leaves it unchanged. -/
def lastErrStep (deliver : Request L S M → SendResult)
    (acc : Option SendError) (req : Request L S M) : Option SendError :=
  match sendOutcome (deliver req) with
  | some e => some e
  | none => acc

/-- The post-swap half of `Client.Flush`: attempt every request of the
snapshot in order, accumulating `lastErr`, starting from nil. -/
def flushSend (deliver : Request L S M → SendResult) (snap : Buffers L S M) :
    Option SendError :=
  (flushRequests snap).foldl (lastErrStep deliver) none

/-- `Client.Flush`: swap the buffers under the lock, release, then send
the snapshot and return `lastErr`. -/
def Flush (deliver : Request L S M → SendResult) (st : ClientState L S M) :
    Option SendError × ClientState L S M :=
  let (snap, st') := flushSwap st
  (flushSend deliver snap, st')

/-- `Client.Close`: cancel the context (stopping the flush worker), wait
for it, then run one final synchronous `Flush` and return its result. -/
def Close (deliver : Request L S M → SendResult) (st : ClientState L S M) :
    Option SendError × ClientState L S M :=
  Flush deliver { st with cancelled := true }

/-- One loop iteration of `Client.flushWorker` at a ticker tick: if the
context is cancelled the worker returns (`none`); otherwise it flushes,
discards the error, and keeps running. -/
def flushWorkerTick (deliver : Request L S M → SendResult)
    (st : ClientState L S M) : Option (ClientState L S M) :=
  if st.cancelled then none else some (Flush deliver st).2

/-- `Client.addLog`: append the entry to logBuffer under the lock and
record whether `len(logBuffer) >= BatchSize` (the condition under which
`go c.Flush()` is dispatched). -/
def addLog (st : ClientState L S M) (entry : L) : ClientState L S M × Bool :=
  let st' := { st with buffers := { st.buffers with logs := st.buffers.logs ++ [entry] } }
  (st', decide (st'.config.batchSize ≤ (st'.buffers.logs.length : Int)))

/-- `Client.addSpan`: same shape as `addLog`, on spanBuffer. -/
def addSpan (st : ClientState L S M) (span : S) : ClientState L S M × Bool :=
  let st' := { st with buffers := { st.buffers with spans := st.buffers.spans ++ [span] } }
  (st', decide (st'.config.batchSize ≤ (st'.buffers.spans.length : Int)))

/-- `Client.addMetric`: same shape as `addLog`, on metricBuffer. -/
def addMetric (st : ClientState L S M) (metric : M) : ClientState L S M × Bool :=
  let st' := { st with buffers := { st.buffers with metrics := st.buffers.metrics ++ [metric] } }
  (st', decide (st'.config.batchSize ≤ (st'.buffers.metrics.length : Int)))

/-- `Client.LogJob`: default `Ts` to the current time when empty, append
to jobBuffer, and record whether the batch-size trigger fired. `now` is
the formatted current time. -/
def LogJob (now : String) (st : ClientState L S M) (job : JobData) :
    ClientState L S M × Bool :=
  let job := if job.ts = "" then { job with ts := now } else job
  let st' := { st with buffers := { st.buffers with jobs := st.buffers.jobs ++ [job] } }
  (st', decide (st'.config.batchSize ≤ (st'.buffers.jobs.length : Int)))

/-- Iterated `addLog`, returning the final state and the list of
per-append flush-trigger flags, in order. -/
def addLogRun (st : ClientState L S M) : List L → ClientState L S M × List Bool
  | [] => (st, [])
  | r :: rs =>
    let (st', b) := addLog st r
    let (stf, bs) := addLogRun st' rs
    (stf, b :: bs)

/-- Log records carried by a request: the contents of a logs batch
envelope, nothing for other requests. -/
def requestLogs : Request L S M → List L
  | ⟨_, .logBatch ls⟩ => ls
  | _ => []

/-- Span records carried by a request. -/
def requestSpans : Request L S M → List S
  | ⟨_, .spanBatch ss⟩ => ss
  | _ => []

/-- Metric records carried by a request. -/
def requestMetrics : Request L S M → List M
  | ⟨_, .metricBatch ms⟩ => ms
  | _ => []

/-- Job records carried by a request. -/
def requestJobs : Request L S M → List JobData
  | ⟨_, .jobSingle j⟩ => [j]
  | _ => []

/-- All log records appearing across a list of requests, in order. -/
def requestsLogs (rs : List (Request L S M)) : List L :=
  (rs.map requestLogs).flatten

/-- All span records appearing across a list of requests, in order. -/
def requestsSpans (rs : List (Request L S M)) : List S :=
  (rs.map requestSpans).flatten

/-- All metric records appearing across a list of requests, in order. -/
def requestsMetrics (rs : List (Request L S M)) : List M :=
  (rs.map requestMetrics).flatten

/-- All job records appearing across a list of requests, in order. -/
def requestsJobs (rs : List (Request L S M)) : List JobData :=
  (rs.map requestJobs).flatten

/-- Interleaving events on the shared buffers: the four append
operations' lock-held sections and the lock-held swap section of a
flush. The lock serializes these into a trace. -/
inductive Event (L S M : Type) where
  | appendLog (r : L)
  | appendSpan (r : S)
  | appendMetric (r : M)
  | appendJob (r : JobData)
  | swap
deriving DecidableEq

/-- Effect of one serialized lock-held section on the buffers; a swap
additionally emits the snapshot its flush goes on to send. -/
def step (b : Buffers L S M) : Event L S M → Buffers L S M × Option (Buffers L S M)
  | .appendLog r => ({ b with logs := b.logs ++ [r] }, none)
  | .appendSpan r => ({ b with spans := b.spans ++ [r] }, none)
  | .appendMetric r => ({ b with metrics := b.metrics ++ [r] }, none)
  | .appendJob r => ({ b with jobs := b.jobs ++ [r] }, none)
  | .swap => (emptyBuffers, some b)

/-- Run a serialized trace of lock-held sections, collecting the
snapshots the flushes observed, in swap order. -/
def runTrace (b : Buffers L S M) : List (Event L S M) → Buffers L S M × List (Buffers L S M)
  | [] => (b, [])
  | e :: es =>
    let (b', snap) := step b e
    let (bf, snaps) := runTrace b' es
    (bf, snap.toList ++ snaps)

/-- The log records appended by a trace, in order. -/
def appendedLogs (es : List (Event L S M)) : List L :=
  es.filterMap fun e => match e with | .appendLog r => some r | _ => none

/-- The span records appended by a trace, in order. -/
def appendedSpans (es : List (Event L S M)) : List S :=
  es.filterMap fun e => match e with | .appendSpan r => some r | _ => none

/-- The metric records appended by a trace, in order. -/
def appendedMetrics (es : List (Event L S M)) : List M :=
  es.filterMap fun e => match e with | .appendMetric r => some r | _ => none

/-- The job records appended by a trace, in order. -/
def appendedJobs (es : List (Event L S M)) : List JobData :=
  es.filterMap fun e => match e with | .appendJob r => some r | _ => none

/-- The buffers holding exactly the records appended by a trace. -/
def appendedBuffers (es : List (Event L S M)) : Buffers L S M :=
  ⟨appendedLogs es, appendedSpans es, appendedMetrics es, appendedJobs es⟩

/-- Running a concatenated trace runs the pieces in sequence and
concatenates the collected snapshots. -/
theorem runTrace_append (b : Buffers L S M) (es₁ es₂ : List (Event L S M)) :
    runTrace b (es₁ ++ es₂) =
      ((runTrace (runTrace b es₁).1 es₂).1,
        (runTrace b es₁).2 ++ (runTrace (runTrace b es₁).1 es₂).2) := by
  induction es₁ generalizing b with
  | nil => simp [runTrace]
  | cons e es ih =>
    cases e <;> simp [runTrace, step, ih]

/-- A trace with no swap collects no snapshot and leaves the appended
records after the initial contents of each buffer. -/
theorem runTrace_no_swap (b : Buffers L S M) (es : List (Event L S M))
    (h : Event.swap ∉ es) :
    runTrace b es =
      (⟨b.logs ++ appendedLogs es, b.spans ++ appendedSpans es,
        b.metrics ++ appendedMetrics es, b.jobs ++ appendedJobs es⟩, []) := by
  induction es generalizing b with
  | nil =>
    simp [runTrace, appendedLogs, appendedSpans, appendedMetrics, appendedJobs]
  | cons e es ih =>
    have he : e ≠ Event.swap := fun hcontra => h (hcontra ▸ List.mem_cons_self e es)
    have hes : Event.swap ∉ es := fun hcontra => h (List.mem_cons_of_mem e hcontra)
    cases e with
    | appendLog r =>
      simp [runTrace, step, ih _ hes, appendedLogs, appendedSpans,
        appendedMetrics, appendedJobs, List.filterMap_cons]
    | appendSpan r =>
      simp [runTrace, step, ih _ hes, appendedLogs, appendedSpans,
        appendedMetrics, appendedJobs, List.filterMap_cons]
    | appendMetric r =>
      simp [runTrace, step, ih _ hes, appendedLogs, appendedSpans,
        appendedMetrics, appendedJobs, List.filterMap_cons]
    | appendJob r =>
      simp [runTrace, step, ih _ hes, appendedLogs, appendedSpans,
        appendedMetrics, appendedJobs, List.filterMap_cons]
    | swap => exact absurd rfl he

/-- C1: the lock-held portion of `Client.Flush` swaps all four buffers
for fresh empty ones, so any serialization of two flush swaps with the
intervening appends gives the first flush the snapshot of the records
appended before its swap, the second the records appended between the
swaps: the union of the two snapshots is exactly the records appended
before the respective swap points, and (for distinct records) the two
snapshots are disjoint — nothing sent twice, nothing lost by the swap. -/
theorem flush_concurrent_snapshots (A₁ A₂ : List (Event L S M))
    (h₁ : Event.swap ∉ A₁) (h₂ : Event.swap ∉ A₂) :
    runTrace emptyBuffers (A₁ ++ Event.swap :: (A₂ ++ [Event.swap]))
        = (emptyBuffers, [appendedBuffers A₁, appendedBuffers A₂]) ∧
    appendedLogs A₁ ++ appendedLogs A₂ = appendedLogs (A₁ ++ A₂) ∧
    appendedSpans A₁ ++ appendedSpans A₂ = appendedSpans (A₁ ++ A₂) ∧
    appendedMetrics A₁ ++ appendedMetrics A₂ = appendedMetrics (A₁ ++ A₂) ∧
    appendedJobs A₁ ++ appendedJobs A₂ = appendedJobs (A₁ ++ A₂) ∧
    ((appendedLogs (A₁ ++ A₂)).Nodup →
      (appendedLogs A₁).Disjoint (appendedLogs A₂)) ∧
    ((appendedSpans (A₁ ++ A₂)).Nodup →
      (appendedSpans A₁).Disjoint (appendedSpans A₂)) ∧
    ((appendedMetrics (A₁ ++ A₂)).Nodup →
      (appendedMetrics A₁).Disjoint (appendedMetrics A₂)) ∧
    ((appendedJobs (A₁ ++ A₂)).Nodup →
      (appendedJobs A₁).Disjoint (appendedJobs A₂)) := by
  have hL : appendedLogs (A₁ ++ A₂) = appendedLogs A₁ ++ appendedLogs A₂ :=
    List.filterMap_append A₁ A₂ _
  have hS : appendedSpans (A₁ ++ A₂) = appendedSpans A₁ ++ appendedSpans A₂ :=
    List.filterMap_append A₁ A₂ _
  have hM : appendedMetrics (A₁ ++ A₂) = appendedMetrics A₁ ++ appendedMetrics A₂ :=
    List.filterMap_append A₁ A₂ _
  have hJ : appendedJobs (A₁ ++ A₂) = appendedJobs A₁ ++ appendedJobs A₂ :=
    List.filterMap_append A₁ A₂ _
  refine ⟨?_, hL.symm, hS.symm, hM.symm, hJ.symm,
    fun h => (List.nodup_append.mp (hL ▸ h)).2.2,
    fun h => (List.nodup_append.mp (hS ▸ h)).2.2,
    fun h => (List.nodup_append.mp (hM ▸ h)).2.2,
    fun h => (List.nodup_append.mp (hJ ▸ h)).2.2⟩
  rw [runTrace_append _ _ _, runTrace_no_swap _ _ h₁]
  simp only [runTrace, step]
  rw [runTrace_append _ _ _, runTrace_no_swap _ _ h₂]
  simp [runTrace, step, appendedBuffers, emptyBuffers]

/-- Concrete instance of `flush_concurrent_snapshots`: two appends before
the first swap, one between the swaps, over `Nat` records. -/
theorem flush_concurrent_snapshots_witness :
    runTrace emptyBuffers
        ([Event.appendLog 1, Event.appendSpan 5] ++ Event.swap ::
          (([Event.appendLog 2] : List (Event Nat Nat Nat)) ++ [Event.swap]))
      = (emptyBuffers,
          [⟨[1], [5], [], []⟩, ⟨[2], [], [], []⟩]) ∧
    ([1] : List Nat).Disjoint [2] := by
  have h := flush_concurrent_snapshots
    [Event.appendLog 1, Event.appendSpan 5]
    ([Event.appendLog 2] : List (Event Nat Nat Nat))
    (by decide) (by decide)
  refine ⟨h.1, ?_⟩
  have hd := h.2.2.2.2.2.1 (by decide)
  exact hd

theorem flatten_requestLogs_jobs (js : List JobData) :
    (js.map ((requestLogs : Request L S M → List L) ∘ sendJobReq)).flatten = [] := by
  induction js with
  | nil => rfl
  | cons j js ih => simp [requestLogs, sendJobReq]

theorem flatten_requestSpans_jobs (js : List JobData) :
    (js.map ((requestSpans : Request L S M → List S) ∘ sendJobReq)).flatten = [] := by
  induction js with
  | nil => rfl
  | cons j js ih => simp [requestSpans, sendJobReq]

theorem flatten_requestMetrics_jobs (js : List JobData) :
    (js.map ((requestMetrics : Request L S M → List M) ∘ sendJobReq)).flatten = [] := by
  induction js with
  | nil => rfl
  | cons j js ih => simp [requestMetrics, sendJobReq]

theorem flatten_requestJobs_jobs (js : List JobData) :
    (js.map ((requestJobs : Request L S M → List JobData) ∘ sendJobReq)).flatten = js := by
  induction js with
  | nil => rfl
  | cons j js ih => simpa [requestJobs, sendJobReq] using ih

/-- The flush request sequence for a snapshot carries exactly the
snapshot's log records. -/
theorem flushRequests_logs (snap : Buffers L S M) :
    requestsLogs (flushRequests snap) = snap.logs := by
  rcases snap with ⟨ls, ss, ms, js⟩
  simp only [flushRequests, requestsLogs, List.map_append, List.flatten_append,
    List.map_map]
  split_ifs <;>
    simp_all [requestLogs, sendLogsReq, sendSpansReq, sendMetricsReq,
      flatten_requestLogs_jobs]

/-- The flush request sequence for a snapshot carries exactly the
snapshot's span records. -/
theorem flushRequests_spans (snap : Buffers L S M) :
    requestsSpans (flushRequests snap) = snap.spans := by
  rcases snap with ⟨ls, ss, ms, js⟩
  simp only [flushRequests, requestsSpans, List.map_append, List.flatten_append,
    List.map_map]
  split_ifs <;>
    simp_all [requestSpans, sendLogsReq, sendSpansReq, sendMetricsReq,
      flatten_requestSpans_jobs]

/-- The flush request sequence for a snapshot carries exactly the
snapshot's metric records. -/
theorem flushRequests_metrics (snap : Buffers L S M) :
    requestsMetrics (flushRequests snap) = snap.metrics := by
  rcases snap with ⟨ls, ss, ms, js⟩
  simp only [flushRequests, requestsMetrics, List.map_append, List.flatten_append,
    List.map_map]
  split_ifs <;>
    simp_all [requestMetrics, sendLogsReq, sendSpansReq, sendMetricsReq,
      flatten_requestMetrics_jobs]

/-- The flush request sequence for a snapshot carries exactly the
snapshot's job records, one request each. -/
theorem flushRequests_jobs (snap : Buffers L S M) :
    requestsJobs (flushRequests snap) = snap.jobs := by
  rcases snap with ⟨ls, ss, ms, js⟩
  simp only [flushRequests, requestsJobs, List.map_append, List.flatten_append,
    List.map_map]
  split_ifs <;>
    simp_all [requestJobs, sendLogsReq, sendSpansReq, sendMetricsReq,
      flatten_requestJobs_jobs]

/-- C3: the final flush run by `Client.Close` attempts delivery of every
record still held in the four buffers — per kind, the records carried by
the requests of that flush are exactly the buffered records — and no
buffered data survives it silently. -/
theorem close_flush_attempts_all (deliver : Request L S M → SendResult)
    (st : ClientState L S M) :
    (Close deliver st).2.buffers = emptyBuffers ∧
    (Close deliver st).1 = flushSend deliver st.buffers ∧
    requestsLogs (flushRequests st.buffers) = st.buffers.logs ∧
    requestsSpans (flushRequests st.buffers) = st.buffers.spans ∧
    requestsMetrics (flushRequests st.buffers) = st.buffers.metrics ∧
    requestsJobs (flushRequests st.buffers) = st.buffers.jobs :=
  ⟨rfl, rfl, flushRequests_logs _, flushRequests_spans _,
    flushRequests_metrics _, flushRequests_jobs _⟩

/-- C4: `Client.Close` signals cancellation (after which a flush worker
tick terminates instead of flushing), runs exactly one synchronous flush
whose aggregated error is returned to the caller, and leaves all four
buffers with length 0 regardless of delivery outcomes. -/
theorem close_sequence (deliver : Request L S M → SendResult)
    (st : ClientState L S M) :
    (Close deliver st).1 = flushSend deliver st.buffers ∧
    (Close deliver st).2.cancelled = true ∧
    flushWorkerTick deliver { st with cancelled := true } = none ∧
    (Close deliver st).2.buffers.logs.length = 0 ∧
    (Close deliver st).2.buffers.spans.length = 0 ∧
    (Close deliver st).2.buffers.metrics.length = 0 ∧
    (Close deliver st).2.buffers.jobs.length = 0 :=
  ⟨rfl, rfl, by simp [flushWorkerTick], rfl, rfl, rfl, rfl⟩

/-- The `lastErr` fold of `Client.Flush` keeps the last failing
attempt's error, falling back to the initial accumulator. -/
theorem foldl_lastErrStep (deliver : Request L S M → SendResult)
    (l : List (Request L S M)) (acc : Option SendError) :
    l.foldl (lastErrStep deliver) acc =
      ((l.filterMap fun r => sendOutcome (deliver r)).getLast?).or acc := by
  induction l using List.reverseRecOn with
  | nil => simp
  | append_singleton l r ih =>
    rw [List.foldl_append, ih]
    cases hr : sendOutcome (deliver r) with
    | some e =>
      simp [List.foldl, lastErrStep, hr, List.filterMap_append, List.getLast?_concat]
    | none =>
      simp [List.foldl, lastErrStep, hr, List.filterMap_append]

/-- C6: flush error aggregation is last-error-wins and not fail-fast:
the flush result is exactly the last error among the outcomes of all
delivery attempts of the snapshot (nil when every attempt succeeded),
every request being attempted regardless of earlier failures. -/
theorem flush_last_error_wins (deliver : Request L S M → SendResult)
    (snap : Buffers L S M) :
    flushSend deliver snap =
      ((flushRequests snap).filterMap fun r => sendOutcome (deliver r)).getLast? := by
  rw [flushSend, foldl_lastErrStep]
  exact Option.or_none

/-- C5: a delivery attempt succeeds exactly when it produced a response
with status below 400 — every transport-level failure and every status
of 400 or above is the uniform error outcome; a flush drains the
swapped-out buffers regardless of delivery outcomes; and a flush
returns nil exactly when every attempt of its snapshot succeeded. -/
theorem send_failure_semantics :
    (∀ r : SendResult,
      sendOutcome r = none ↔ ∃ code, r = SendResult.status code ∧ code < 400) ∧
    (∀ (deliver : Request L S M → SendResult) (st : ClientState L S M),
      (Flush deliver st).2.buffers = emptyBuffers) ∧
    (∀ (deliver : Request L S M → SendResult) (snap : Buffers L S M),
      flushSend deliver snap = none ↔
        ∀ req ∈ flushRequests snap, sendOutcome (deliver req) = none) := by
  refine ⟨?_, fun deliver st => rfl, ?_⟩
  · intro r
    cases r with
    | status code =>
      by_cases h : 400 ≤ code
      · simp only [sendOutcome, if_pos h]
        constructor
        · intro hc
          exact absurd hc (by simp)
        · rintro ⟨c, hc, hlt⟩
          injection hc with hcc
          exact absurd h (by omega)
      · simp only [sendOutcome, if_neg h]
        exact ⟨fun _ => ⟨code, rfl, by omega⟩, fun _ => trivial⟩
    | marshalFailure => simp [sendOutcome]
    | gzipFailure => simp [sendOutcome]
    | requestFailure => simp [sendOutcome]
    | transportFailure => simp [sendOutcome]
  · intro deliver snap
    rw [flush_last_error_wins]
    simp [List.getLast?_eq_none_iff, List.filterMap_eq_nil_iff]

/-- Concrete instance of `send_failure_semantics`: status 200 succeeds,
status 500 and a transport failure are errors, and a flush against a
backend answering 500 drains the buffer while reporting a failure. -/
theorem send_failure_semantics_witness :
    sendOutcome (SendResult.status 200) = none ∧
    sendOutcome (SendResult.status 500) = some (SendError.httpStatus 500) ∧
    sendOutcome SendResult.transportFailure = some SendError.transport ∧
    (Flush (fun _ => SendResult.status 500)
        (⟨⟨"http://x", "k", "production", "svc", "", false, 2, 5000000000, 5000000000⟩,
          ⟨[7], [], [], []⟩, false⟩ : ClientState Nat Nat Nat)).2.buffers
      = emptyBuffers ∧
    (Flush (fun _ => SendResult.status 500)
        (⟨⟨"http://x", "k", "production", "svc", "", false, 2, 5000000000, 5000000000⟩,
          ⟨[7], [], [], []⟩, false⟩ : ClientState Nat Nat Nat)).1
      = some (SendError.httpStatus 500) := by
  refine ⟨?_, by decide, by decide,
    (@send_failure_semantics Nat Nat Nat).2.1 (fun _ => SendResult.status 500) _, by decide⟩
  exact ((@send_failure_semantics Nat Nat Nat).1 (SendResult.status 200)).mpr
    ⟨200, rfl, by decide⟩

/-- C9: flushing with all four buffers empty is a no-op — the flush
makes zero delivery attempts, returns no error, and leaves the client
state unchanged. -/
theorem flush_empty_noop (deliver : Request L S M → SendResult)
    (st : ClientState L S M) (h : st.buffers = emptyBuffers) :
    flushRequests st.buffers = [] ∧ Flush deliver st = (none, st) := by
  rcases st with ⟨cfg, bufs, can⟩
  cases h
  exact ⟨rfl, rfl⟩

/-- Concrete instance of `flush_empty_noop` on a freshly built client. -/
theorem flush_empty_noop_witness :
    Flush (fun _ => SendResult.status 200)
        (⟨⟨"http://x", "k", "production", "svc", "", false, 100, 5000000000, 5000000000⟩,
          emptyBuffers, false⟩ : ClientState Nat Nat Nat)
      = (none,
          ⟨⟨"http://x", "k", "production", "svc", "", false, 100, 5000000000, 5000000000⟩,
            emptyBuffers, false⟩) :=
  (flush_empty_noop (fun _ => SendResult.status 200) _ rfl).2

/-- C10: a flush triggered by one kind crossing its batch-size threshold
drains and attempts delivery of all four buffers, not only the
triggering kind: after the triggering append, the flush's requests carry
the full contents of each buffer and every buffer is left empty. -/
theorem size_trigger_drains_all_kinds (st : ClientState L S M) (r : L)
    (deliver : Request L S M → SendResult)
    (_htrig : (addLog st r).2 = true) :
    (Flush deliver (addLog st r).1).2.buffers = emptyBuffers ∧
    requestsLogs (flushRequests (addLog st r).1.buffers) = st.buffers.logs ++ [r] ∧
    requestsSpans (flushRequests (addLog st r).1.buffers) = st.buffers.spans ∧
    requestsMetrics (flushRequests (addLog st r).1.buffers) = st.buffers.metrics ∧
    requestsJobs (flushRequests (addLog st r).1.buffers) = st.buffers.jobs :=
  ⟨rfl, flushRequests_logs _, flushRequests_spans _,
    flushRequests_metrics _, flushRequests_jobs _⟩

/-- Concrete instance of `size_trigger_drains_all_kinds`: the
batch-size-th log append also drains a pending span and a pending job. -/
theorem size_trigger_drains_all_kinds_witness :
    requestsLogs (flushRequests
        ((addLog (⟨⟨"http://x", "k", "production", "svc", "", false, 1, 5000000000, 5000000000⟩,
          ⟨[], [9], [], [⟨"j", "q", 1, 0, "ok", "", "t"⟩]⟩, false⟩ : ClientState Nat Nat Nat) 5).1.buffers))
      = [5] ∧
    requestsSpans (flushRequests
        ((addLog (⟨⟨"http://x", "k", "production", "svc", "", false, 1, 5000000000, 5000000000⟩,
          ⟨[], [9], [], [⟨"j", "q", 1, 0, "ok", "", "t"⟩]⟩, false⟩ : ClientState Nat Nat Nat) 5).1.buffers))
      = [9] ∧
    requestsJobs (flushRequests
        ((addLog (⟨⟨"http://x", "k", "production", "svc", "", false, 1, 5000000000, 5000000000⟩,
          ⟨[], [9], [], [⟨"j", "q", 1, 0, "ok", "", "t"⟩]⟩, false⟩ : ClientState Nat Nat Nat) 5).1.buffers))
      = [⟨"j", "q", 1, 0, "ok", "", "t"⟩] := by
  have h := size_trigger_drains_all_kinds
    (⟨⟨"http://x", "k", "production", "svc", "", false, 1, 5000000000, 5000000000⟩,
      ⟨[], [9], [], [⟨"j", "q", 1, 0, "ok", "", "t"⟩]⟩, false⟩ : ClientState Nat Nat Nat) 5
    (fun _ => SendResult.status 200) (by decide)
  exact ⟨h.2.1, h.2.2.1, h.2.2.2.2⟩

theorem addLogRun_snd_cons (st : ClientState L S M) (r : L) (rs : List L) :
    (addLogRun st (r :: rs)).2 = (addLog st r).2 :: (addLogRun (addLog st r).1 rs).2 :=
  rfl

/-- Iterated `addLog` leaves configuration and the other buffers
untouched and appends the records, in order, to logBuffer. -/
theorem addLogRun_state (st : ClientState L S M) (rs : List L) :
    (addLogRun st rs).1 =
      { st with buffers := { st.buffers with logs := st.buffers.logs ++ rs } } := by
  induction rs generalizing st with
  | nil => simp [addLogRun]
  | cons r rs ih => simp [addLogRun, addLog, ih]

/-- The trigger flag computed by one `addLog`. -/
theorem addLog_snd (st : ClientState L S M) (r : L) :
    (addLog st r).2 =
      decide (st.config.batchSize ≤ (st.buffers.logs.length : Int) + 1) := by
  show decide _ = decide _
  rw [decide_eq_decide]
  simp only [List.length_append, List.length_singleton]
  push_cast
  omega

/-- The state produced by one `addLog`. -/
theorem addLog_fst (st : ClientState L S M) (r : L) :
    (addLog st r).1 =
      { st with buffers := { st.buffers with logs := st.buffers.logs ++ [r] } } :=
  rfl

/-- Below the batch-size threshold no append dispatches a flush: every
trigger flag of the run is false. -/
theorem addLogRun_triggers_false (st : ClientState L S M) (rs : List L)
    (h : (st.buffers.logs.length : Int) + rs.length < st.config.batchSize) :
    (addLogRun st rs).2 = List.replicate rs.length false := by
  induction rs generalizing st with
  | nil => simp [addLogRun]
  | cons r rs ih =>
    have h1 : (addLog st r).2 = false := by
      rw [addLog_snd, decide_eq_false_iff_not]
      push_cast [List.length_cons] at h ⊢
      omega
    have h2 : ((addLog st r).1.buffers.logs.length : Int) + rs.length
        < (addLog st r).1.config.batchSize := by
      rw [addLog_fst]
      simp only [List.length_append, List.length_singleton]
      push_cast [List.length_cons] at h ⊢
      omega
    rw [addLogRun_snd_cons, h1, ih _ h2, List.length_cons, List.replicate_succ]

/-- The last trigger flag of a non-empty `addLog` run records whether
the final buffer length reached the batch size. -/
theorem addLogRun_last_trigger (st : ClientState L S M) (rs : List L)
    (h : rs ≠ []) :
    (addLogRun st rs).2.getLast? =
      some (decide (st.config.batchSize ≤ (st.buffers.logs.length : Int) + rs.length)) := by
  induction rs generalizing st with
  | nil => exact absurd rfl h
  | cons r rs ih =>
    cases rs with
    | nil =>
      have hsingle : (addLogRun st [r]).2 = [(addLog st r).2] := rfl
      rw [hsingle, List.getLast?_singleton, addLog_snd]
      refine congrArg some ?_
      rw [decide_eq_decide]
      push_cast [List.length_singleton]
      omega
    | cons r2 rs2 =>
      rw [addLogRun_snd_cons, addLogRun_snd_cons, List.getLast?_cons_cons,
        ← addLogRun_snd_cons, ih _ (by simp)]
      refine congrArg some ?_
      rw [decide_eq_decide, addLog_fst]
      simp only [List.length_append, List.length_singleton, List.length_cons,
        List.length_nil]
      push_cast
      omega

/-- C2: each append operation appends its record to that kind's buffer
and returns nothing but the state (no error), dispatching a flush if
and only if the buffer's length after the append has reached the batch
size; appending fewer than batchSize log records to a fresh client
leaves exactly those records buffered with no flush dispatched, while
appending exactly batchSize records dispatches a flush on the last
append, and that flush empties the log buffer with exactly one delivery
attempt, to the logs endpoint. -/
theorem append_batch_threshold (st : ClientState L S M)
    (rs₁ rs₂ : List L) (deliver : Request L S M → SendResult)
    (hempty : st.buffers = emptyBuffers)
    (hpos : 0 < st.config.batchSize)
    (h₁ : (rs₁.length : Int) < st.config.batchSize)
    (h₂ : (rs₂.length : Int) = st.config.batchSize) :
    (∀ (u : ClientState L S M) (r : L),
      (addLog u r).1.buffers.logs = u.buffers.logs ++ [r] ∧
      ((addLog u r).2 = true ↔
        u.config.batchSize ≤ (u.buffers.logs.length : Int) + 1)) ∧
    (∀ (u : ClientState L S M) (r : S),
      (addSpan u r).1.buffers.spans = u.buffers.spans ++ [r] ∧
      ((addSpan u r).2 = true ↔
        u.config.batchSize ≤ (u.buffers.spans.length : Int) + 1)) ∧
    (∀ (u : ClientState L S M) (r : M),
      (addMetric u r).1.buffers.metrics = u.buffers.metrics ++ [r] ∧
      ((addMetric u r).2 = true ↔
        u.config.batchSize ≤ (u.buffers.metrics.length : Int) + 1)) ∧
    (∀ (now : String) (u : ClientState L S M) (j : JobData),
      (LogJob now u j).1.buffers.jobs =
        u.buffers.jobs ++ [if j.ts = "" then { j with ts := now } else j] ∧
      ((LogJob now u j).2 = true ↔
        u.config.batchSize ≤ (u.buffers.jobs.length : Int) + 1)) ∧
    (addLogRun st rs₁).1.buffers.logs = rs₁ ∧
    (addLogRun st rs₁).2 = List.replicate rs₁.length false ∧
    (rs₂ ≠ [] → (addLogRun st rs₂).2.getLast? = some true) ∧
    (Flush deliver (addLogRun st rs₂).1).2.buffers.logs = [] ∧
    flushRequests (addLogRun st rs₂).1.buffers = [sendLogsReq rs₂] := by
  have hlogs0 : st.buffers.logs = [] := by rw [hempty]; rfl
  refine ⟨?_, ?_, ?_, ?_, ?_, ?_, ?_, rfl, ?_⟩
  · intro u r
    refine ⟨rfl, ?_⟩
    rw [addLog_snd, decide_eq_true_eq]
  · intro u r
    refine ⟨rfl, ?_⟩
    show decide _ = true ↔ _
    rw [decide_eq_true_eq]
    simp only [List.length_append, List.length_singleton]
    push_cast
    omega
  · intro u r
    refine ⟨rfl, ?_⟩
    show decide _ = true ↔ _
    rw [decide_eq_true_eq]
    simp only [List.length_append, List.length_singleton]
    push_cast
    omega
  · intro now u j
    refine ⟨rfl, ?_⟩
    show decide _ = true ↔ _
    rw [decide_eq_true_eq]
    simp only [List.length_append, List.length_singleton]
    push_cast
    omega
  · rw [addLogRun_state]
    simp [hlogs0]
  · refine addLogRun_triggers_false st rs₁ ?_
    rw [hlogs0]
    push_cast [List.length_nil]
    omega
  · intro hne
    rw [addLogRun_last_trigger st rs₂ hne, hlogs0]
    refine congrArg some ?_
    rw [decide_eq_true_eq]
    push_cast [List.length_nil]
    omega
  · have hne : 0 < rs₂.length := by omega
    rw [addLogRun_state]
    simp [hempty, emptyBuffers, flushRequests, hne]

/-- Concrete instance of `append_batch_threshold` with batch size 2: one
append stays buffered with no trigger, the second append of a full run
triggers, and the triggered flush issues exactly one logs request. -/
theorem append_batch_threshold_witness :
    (addLogRun (⟨⟨"http://x", "k", "production", "svc", "", false, 2, 5000000000,
        5000000000⟩, emptyBuffers, false⟩ : ClientState Nat Nat Nat) [9]).2
      = [false] ∧
    (addLogRun (⟨⟨"http://x", "k", "production", "svc", "", false, 2, 5000000000,
        5000000000⟩, emptyBuffers, false⟩ : ClientState Nat Nat Nat) [10, 20]).2.getLast?
      = some true ∧
    flushRequests (addLogRun (⟨⟨"http://x", "k", "production", "svc", "", false, 2,
        5000000000, 5000000000⟩, emptyBuffers, false⟩ : ClientState Nat Nat Nat)
        [10, 20]).1.buffers
      = [sendLogsReq [10, 20]] := by
  have h := append_batch_threshold
    (⟨⟨"http://x", "k", "production", "svc", "", false, 2, 5000000000, 5000000000⟩,
      emptyBuffers, false⟩ : ClientState Nat Nat Nat)
    [9] [10, 20] (fun _ => SendResult.status 200) rfl (by decide) (by decide) (by decide)
  exact ⟨h.2.2.2.2.2.1, h.2.2.2.2.2.2.1 (by decide), h.2.2.2.2.2.2.2.2⟩

/-- C7: with every buffer non-empty, a flush issues exactly these
requests in order — one POST per batch kind carrying the whole buffer in
its envelope (logs to /api/ingest/logs, spans to /api/ingest/traces,
metrics to /api/ingest/app-metrics), then one bare-object POST per job
record to /api/ingest/app-job — so each batch endpoint is hit exactly
once and the job endpoint once per job record. -/
theorem flush_endpoint_routing (snap : Buffers L S M)
    (hl : snap.logs ≠ []) (hs : snap.spans ≠ []) (hm : snap.metrics ≠ []) :
    flushRequests snap =
      ⟨"/api/ingest/logs", Payload.logBatch snap.logs⟩ ::
        ⟨"/api/ingest/traces", Payload.spanBatch snap.spans⟩ ::
          ⟨"/api/ingest/app-metrics", Payload.metricBatch snap.metrics⟩ ::
            snap.jobs.map (fun j => ⟨"/api/ingest/app-job", Payload.jobSingle j⟩) ∧
    envelopeKey (Payload.logBatch snap.logs : Payload L S M) = some "logs" ∧
    envelopeKey (Payload.spanBatch snap.spans : Payload L S M) = some "spans" ∧
    envelopeKey (Payload.metricBatch snap.metrics : Payload L S M) = some "metrics" ∧
    (∀ j : JobData, envelopeKey (Payload.jobSingle j : Payload L S M) = none) ∧
    ((flushRequests snap).filter fun r => decide (r.endpoint = "/api/ingest/logs"))
      = [sendLogsReq snap.logs] ∧
    ((flushRequests snap).filter fun r => decide (r.endpoint = "/api/ingest/traces"))
      = [sendSpansReq snap.spans] ∧
    ((flushRequests snap).filter fun r => decide (r.endpoint = "/api/ingest/app-metrics"))
      = [sendMetricsReq snap.metrics] ∧
    ((flushRequests snap).filter fun r => decide (r.endpoint = "/api/ingest/app-job"))
      = snap.jobs.map sendJobReq := by
  have hlp : 0 < snap.logs.length := List.length_pos.mpr hl
  have hsp : 0 < snap.spans.length := List.length_pos.mpr hs
  have hmp : 0 < snap.metrics.length := List.length_pos.mpr hm
  have hrw : flushRequests snap =
      ⟨"/api/ingest/logs", Payload.logBatch snap.logs⟩ ::
        ⟨"/api/ingest/traces", Payload.spanBatch snap.spans⟩ ::
          ⟨"/api/ingest/app-metrics", Payload.metricBatch snap.metrics⟩ ::
            snap.jobs.map (fun j => ⟨"/api/ingest/app-job", Payload.jobSingle j⟩) := by
    simp [flushRequests, hlp, hsp, hmp, sendLogsReq, sendSpansReq, sendMetricsReq,
      sendJobReq]
  refine ⟨hrw, rfl, rfl, rfl, fun j => rfl, ?_, ?_, ?_, ?_⟩ <;>
    rw [hrw] <;>
    simp [List.filter, List.filter_map, Function.comp_def, List.filter_true,
      sendLogsReq, sendSpansReq, sendMetricsReq, sendJobReq]

/-- Concrete instance of `flush_endpoint_routing` with one record of
each kind. -/
theorem flush_endpoint_routing_witness :
    flushRequests (⟨[1], [2], [3], [⟨"j", "q", 1, 0, "ok", "", "t"⟩]⟩ : Buffers Nat Nat Nat) =
      ⟨"/api/ingest/logs", Payload.logBatch [1]⟩ ::
        ⟨"/api/ingest/traces", Payload.spanBatch [2]⟩ ::
          ⟨"/api/ingest/app-metrics", Payload.metricBatch [3]⟩ ::
            [⟨"/api/ingest/app-job", Payload.jobSingle ⟨"j", "q", 1, 0, "ok", "", "t"⟩⟩] := by
  have h := flush_endpoint_routing
    (⟨[1], [2], [3], [⟨"j", "q", 1, 0, "ok", "", "t"⟩]⟩ : Buffers Nat Nat Nat)
    (by decide) (by decide) (by decide)
  simpa using h.1

/-- C8: `New` fails with the configuration error exactly when, after the
environment fallbacks, the APIUrl or the IngestKey is still missing; a
successfully constructed client carries the resolved URL and key and the
documented defaults for every unset optional parameter — batch size 100,
flush interval 5s, timeout 5s, environment "production". -/
theorem new_validation_defaults (envUrl envKey : String) (cfg : Config) :
    ((New envUrl envKey cfg : Except String (ClientState L S M)) =
        Except.error "APIUrl and IngestKey are required" ↔
      resolvedApiUrl envUrl cfg = "" ∨ resolvedIngestKey envKey cfg = "") ∧
    (∀ c : ClientState L S M, New envUrl envKey cfg = Except.ok c →
      c.buffers = emptyBuffers ∧
      c.cancelled = false ∧
      c.config.apiUrl = resolvedApiUrl envUrl cfg ∧
      c.config.ingestKey = resolvedIngestKey envKey cfg ∧
      (cfg.environment = "" → c.config.environment = "production") ∧
      (cfg.batchSize = 0 → c.config.batchSize = 100) ∧
      (cfg.flushInterval = 0 → c.config.flushInterval = 5000000000) ∧
      (cfg.timeout = 0 → c.config.timeout = 5000000000)) := by
  have hnew : (New envUrl envKey cfg : Except String (ClientState L S M)) =
      if resolvedApiUrl envUrl cfg = "" ∨ resolvedIngestKey envKey cfg = "" then
        Except.error "APIUrl and IngestKey are required"
      else
        Except.ok
          ⟨applyDefaults
              { cfg with
                apiUrl := resolvedApiUrl envUrl cfg
                ingestKey := resolvedIngestKey envKey cfg },
            emptyBuffers, false⟩ := rfl
  by_cases hcond : resolvedApiUrl envUrl cfg = "" ∨ resolvedIngestKey envKey cfg = ""
  · constructor
    · rw [hnew, if_pos hcond]
      simp [hcond]
    · intro c hc
      rw [hnew, if_pos hcond] at hc
      cases hc
  · constructor
    · rw [hnew, if_neg hcond]
      simp [hcond]
    · intro c hc
      rw [hnew, if_neg hcond] at hc
      cases hc
      refine ⟨rfl, rfl, rfl, rfl, ?_, ?_, ?_, ?_⟩
      · intro h
        show (if cfg.environment = "" then "production" else cfg.environment) = _
        rw [if_pos h]
      · intro h
        show (if cfg.batchSize = 0 then 100 else cfg.batchSize) = _
        rw [if_pos h]
      · intro h
        show (if cfg.flushInterval = 0 then 5000000000 else cfg.flushInterval) = _
        rw [if_pos h]
      · intro h
        show (if cfg.timeout = 0 then 5000000000 else cfg.timeout) = _
        rw [if_pos h]

/-- Concrete instance of `new_validation_defaults`: a config with only
credentials from the environment gets every documented default, and a
config with no URL or key anywhere is rejected. -/
theorem new_validation_defaults_witness :
    (New "http://e" "ke" ⟨"", "", "", "svc", "", false, 0, 0, 0⟩ :
        Except String (ClientState Nat Nat Nat)) =
      Except.ok ⟨⟨"http://e", "ke", "production", "svc", "", false, 100,
        5000000000, 5000000000⟩, emptyBuffers, false⟩ ∧
    (New "" "" ⟨"", "", "", "svc", "", false, 0, 0, 0⟩ :
        Except String (ClientState Nat Nat Nat)) =
      Except.error "APIUrl and IngestKey are required" :=
  ⟨rfl,
    (@new_validation_defaults Nat Nat Nat "" ""
      ⟨"", "", "", "svc", "", false, 0, 0, 0⟩).1.mpr (Or.inl rfl)⟩

end Omnipulse
